import Mathlib

/-!
Verification of the Trademark Journal Scraper ingestion pipeline.

The persisted data model (journals, pdf_files, trademark_applications,
scraper_logs) is embedded from database/schema.sql.  The pipeline components
(Portal Navigator, Download Manager, Text Extractor, Record Parser, Run
Coordinator) are not shipped in this tree, so they are modelled from the
specification; each such definition carries a doc comment saying so.  The
Dashboard cleanup handler is embedded from
frontend/src/pages/Dashboard.jsx.
-/

/-- Status enum shared by journals.status and pdf_files.extraction_status in
database/schema.sql. -/
inductive Status where
  | PENDING
  | PROCESSING
  | COMPLETED
  | ERROR
deriving DecidableEq, Repr

/-- scraper_logs.execution_type from database/schema.sql. -/
inductive TriggerKind where
  | SCHEDULED
  | MANUAL
deriving DecidableEq, Repr

/-- scraper_logs.status from database/schema.sql. -/
inductive Outcome where
  | SUCCESS
  | FAILURE
  | PARTIAL
deriving DecidableEq, Repr

/-- Modelled from the spec: the Run Coordinator state machine states (the Run
Coordinator implementation is not in the tree). -/
inductive RCState where
  | IDLE
  | DISCOVERING
  | DOWNLOADING
  | EXTRACTING
  | DONE
  | FAILED
deriving DecidableEq, Repr

/-- Modelled from the spec: a download target discovered by the Portal
Navigator; identity is publication identifier plus class-range label. -/
structure Target where
  journal_number : String
  class_range : String
  file_name : String
deriving DecidableEq, Repr

/-- Row of the journals table (database/schema.sql), claim-relevant columns. -/
structure Journal where
  journal_number : String
  publication_date : String
  availability_date : String
  pdf_count : Nat
  total_trademarks : Nat
  status : Status
  error_message : Option String
deriving DecidableEq, Repr

/-- Row of the pdf_files table (database/schema.sql), claim-relevant columns. -/
structure PdfFile where
  journal_number : String
  file_name : String
  class_range : String
  file_size_bytes : Nat
  extraction_status : Status
  records_extracted : Nat
  error_message : Option String
deriving DecidableEq, Repr

/-- Row of the trademark_applications table (database/schema.sql),
claim-relevant columns; all parsed fields are nullable. -/
structure ParsedRecord where
  application_number : Option String
  filing_date : Option String
  trademark_name : Option String
  applicant_name : Option String
  class_number : Option String
  goods_services : Option String
deriving DecidableEq, Repr

/-- Row of the scraper_logs table (database/schema.sql), claim-relevant
columns. -/
structure RunLog where
  execution_type : TriggerKind
  outcome : Outcome
  journals_found : Nat
  pdfs_downloaded : Nat
  records_extracted : Nat
  error_message : Option String
deriving DecidableEq, Repr

/-- Modelled from the spec: one listing returned by the Portal Navigator
discover, carrying the publication identity, dates and download targets. -/
structure Listing where
  journal_number : String
  publication_date : String
  availability_date : String
  targets : List Target
deriving DecidableEq, Repr

/-! ## Record Parser (modelled from the spec) -/

/-- Modelled from the spec: a labeled-field extractor matches a line when the
field label is a prefix of the line (the Record Parser is not in the tree). -/
def labelMatches (label line : String) : Bool :=
  label.toList.isPrefixOf line.toList

/-- Modelled from the spec: the value of a labeled line is the text after the
label. -/
def fieldValue (label line : String) : String :=
  String.mk (line.toList.drop label.toList.length)

/-- Modelled from the spec: a field extractor scans the block lines in order
and takes the first line carrying the label; no match yields none. -/
def extractField (label : String) (lines : List String) : Option String :=
  (lines.find? (labelMatches label)).map (fun l => fieldValue label l)

/-- Modelled from the spec: label of the application-number field. -/
def appNoLabel : String := "Application No: "

/-- Modelled from the spec: label of the filing-date field. -/
def filingDateLabel : String := "Filing Date: "

/-- Modelled from the spec: label of the trademark-name field. -/
def nameLabel : String := "Trademark: "

/-- Modelled from the spec: label of the applicant-name field. -/
def applicantLabel : String := "Applicant: "

/-- Modelled from the spec: label of the class-number field. -/
def classNoLabel : String := "Class: "

/-- Modelled from the spec: label of the goods-services field. -/
def goodsLabel : String := "Goods: "

/-- Modelled from the spec: parse one per-application block by applying the
ordered, independent field extractors; a block whose application number cannot
be read at all is unrecoverable and is skipped (none). -/
def parseBlock (block : List String) : Option ParsedRecord :=
  match extractField appNoLabel block with
  | none => none
  | some a =>
    some { application_number := some a,
           filing_date := extractField filingDateLabel block,
           trademark_name := extractField nameLabel block,
           applicant_name := extractField applicantLabel block,
           class_number := extractField classNoLabel block,
           goods_services := extractField goodsLabel block }

/-- Modelled from the spec: parse every block of one file; unparseable blocks
are skipped, parsing continues with the next block. -/
def parseBlocks (blocks : List (List String)) : List ParsedRecord :=
  blocks.filterMap parseBlock

/-! ## Download Manager (modelled from the spec) -/

/-- Existing pdf_files rows are matched by journal number plus file name
(README: checks database for existing PDF records by journal_id + filename). -/
def rowMatches (t : Target) (f : PdfFile) : Bool :=
  decide (f.journal_number = t.journal_number ∧ f.file_name = t.file_name)

/-- Modelled from the spec: look up the target existing AcquiredFile row. -/
def findRow (files : List PdfFile) (t : Target) : Option PdfFile :=
  files.find? (rowMatches t)

/-- Modelled from the spec: delete the target row (self-heal step 2). -/
def deleteRow (files : List PdfFile) (t : Target) : List PdfFile :=
  files.filter (fun f => !(rowMatches t f))

/-- Storage layout root/publication_id/file_name. -/
def filePath (t : Target) : String :=
  t.journal_number ++ "/" ++ t.file_name

/-- The on-disk tree as a finite map from path to byte size. -/
def diskLookup (disk : List (String × Nat)) (path : String) : Option Nat :=
  match disk.find? (fun e => decide (e.1 = path)) with
  | some e => some e.2
  | none => none

/-- Write (or overwrite) one file on disk. -/
def diskWrite (disk : List (String × Nat)) (path : String) (sz : Nat) :
    List (String × Nat) :=
  (path, sz) :: disk.filter (fun e => decide (e.1 ≠ path))

/-- Modelled from the spec: the target file is present and non-empty. -/
def fileOk (disk : List (String × Nat)) (t : Target) : Bool :=
  match diskLookup disk (filePath t) with
  | some n => decide (0 < n)
  | none => false

/-- Modelled from the spec: a file matching the expected name is present. -/
def filePresent (disk : List (String × Nat)) (t : Target) : Bool :=
  (diskLookup disk (filePath t)).isSome

/-- Byte size of the target file on disk, defaulting to zero. -/
def diskSizeD (disk : List (String × Nat)) (t : Target) : Nat :=
  (diskLookup disk (filePath t)).getD 0

/-- Modelled from the spec: the row recorded after a successful acquisition,
with size and COMPLETED status. -/
def mkCompletedRow (t : Target) (sz : Nat) : PdfFile :=
  { journal_number := t.journal_number,
    file_name := t.file_name,
    class_range := t.class_range,
    file_size_bytes := sz,
    extraction_status := Status.COMPLETED,
    records_extracted := 0,
    error_message := none }

/-- Modelled from the spec: the row recorded after a failed download, with
extraction_status ERROR and the failure message. -/
def mkErrorRow (t : Target) (msg : String) : PdfFile :=
  { journal_number := t.journal_number,
    file_name := t.file_name,
    class_range := t.class_range,
    file_size_bytes := 0,
    extraction_status := Status.ERROR,
    records_extracted := 0,
    error_message := some msg }

/-- Message recorded on a network, I/O or timeout failure of step 4. -/
def dlFailMsg : String := "Download failed or timed out"

/-- Modelled from the spec: the Download Manager working state for one run:
the pdf_files rows, the disk, the per-run counters (form submissions,
successful downloads, failed downloads) and the freshly acquired targets
handed to the extraction stage. -/
structure DMState where
  files : List PdfFile
  disk : List (String × Nat)
  netCalls : Nat
  downloaded : Nat
  failures : Nat
  fresh : List Target
deriving DecidableEq, Repr

/-- Modelled from the spec: step 4 — submit the target form (one network
call) and stream the response; success writes the file and a COMPLETED row,
any network/I-O failure or timeout records an ERROR row with a message and
the run continues. -/
def doDownload (net : Target → Option Nat) (s : DMState) (t : Target) :
    DMState :=
  match net t with
  | some sz =>
    { s with files := deleteRow s.files t ++ [mkCompletedRow t sz],
             disk := diskWrite s.disk (filePath t) sz,
             netCalls := s.netCalls + 1,
             downloaded := s.downloaded + 1,
             fresh := s.fresh ++ [t] }
  | none =>
    { s with files := deleteRow s.files t ++ [mkErrorRow t dlFailMsg],
             netCalls := s.netCalls + 1,
             failures := s.failures + 1 }

/-- Modelled from the spec: the Download Manager per-target decision.
Step 1: COMPLETED row with an intact file — skip, no network call.
Step 2: a row whose file is missing or empty — delete the row, re-download.
Step 3: no row but the expected file on disk — adopt it without downloading.
Step 4: otherwise download via the target form. -/
def processTarget (net : Target → Option Nat) (s : DMState) (t : Target) :
    DMState :=
  match findRow s.files t with
  | some r =>
    if r.extraction_status = Status.COMPLETED ∧ fileOk s.disk t = true then s
    else doDownload net s t
  | none =>
    if filePresent s.disk t = true then
      { s with files := s.files ++ [mkCompletedRow t (diskSizeD s.disk t)],
               fresh := s.fresh ++ [t] }
    else doDownload net s t

/-- Modelled from the spec: the Download Manager processes the run targets
in order. -/
def downloadTargets (net : Target → Option Nat) (ts : List Target)
    (s : DMState) : DMState :=
  ts.foldl (processTarget net) s

/-- Modelled from the spec: a target already acquired with an intact file —
the skip condition of step 1. -/
def alreadyAcquired (files : List PdfFile) (disk : List (String × Nat))
    (t : Target) : Bool :=
  match findRow files t with
  | some r => decide (r.extraction_status = Status.COMPLETED) && fileOk disk t
  | none => false

/-- Modelled from the spec: the target falls through to step 4 (no skip and no
adoption). -/
def stepFourReached (s : DMState) (t : Target) : Bool :=
  match findRow s.files t with
  | some r =>
    !(decide (r.extraction_status = Status.COMPLETED) && fileOk s.disk t)
  | none => !(filePresent s.disk t)

/-! ## Run pipeline (modelled from the spec) -/

/-- The persisted state: the four tables of database/schema.sql plus the
download tree on disk. -/
structure PipeState where
  journals : List Journal
  files : List PdfFile
  trademarks : List ParsedRecord
  disk : List (String × Nat)
deriving DecidableEq, Repr

/-- Modelled from the spec: a Publication row created PENDING at discovery. -/
def mkJournal (l : Listing) : Journal :=
  { journal_number := l.journal_number,
    publication_date := l.publication_date,
    availability_date := l.availability_date,
    pdf_count := 0,
    total_trademarks := 0,
    status := Status.PENDING,
    error_message := none }

/-- A journal row with this publication identifier already exists. -/
def journalKnown (journals : List Journal) (jn : String) : Bool :=
  journals.any (fun j => decide (j.journal_number = jn))

/-- Modelled from the spec: discovery upserts journals by unique publication
identifier — an unknown listing is inserted PENDING, a known one is left
untouched (dedup against prior runs). -/
def discoverPhase (listings : List Listing) (journals : List Journal) :
    List Journal :=
  listings.foldl
    (fun js l => if journalKnown js l.journal_number then js
                 else js ++ [mkJournal l]) journals

/-- All download targets of a discovered listing sequence, in order. -/
def allTargets (listings : List Listing) : List Target :=
  (listings.map Listing.targets).flatten

/-- The Download Manager state at the start of a run: current rows and disk,
all per-run counters at zero. -/
def initDM (s : PipeState) : DMState :=
  { files := s.files, disk := s.disk, netCalls := 0, downloaded := 0,
    failures := 0, fresh := [] }

/-- Replace the target row. -/
def updateRow (files : List PdfFile) (t : Target) (r : PdfFile) :
    List PdfFile :=
  files.map (fun f => if rowMatches t f then r else f)

/-- Message recorded when text extraction fails for a file. -/
def exFailMsg : String := "Extraction failed"

/-- Modelled from the spec: extract one freshly acquired file — a successful
parse stores its records and the per-file count, an unreadable file marks the
row ERROR and the run proceeds. -/
def extractTarget (ex : PdfFile → Option (List ParsedRecord))
    (acc : List PdfFile × List ParsedRecord) (t : Target) :
    List PdfFile × List ParsedRecord :=
  match findRow acc.1 t with
  | none => acc
  | some r =>
    match ex r with
    | some recs =>
      (updateRow acc.1 t { r with records_extracted := recs.length },
       acc.2 ++ recs)
    | none =>
      (updateRow acc.1 t
        { r with extraction_status := Status.ERROR,
                 error_message := some exFailMsg },
       acc.2)

/-- Modelled from the spec: the extraction stage processes the files acquired
during this run, one by one. -/
def extractFresh (ex : PdfFile → Option (List ParsedRecord))
    (fresh : List Target) (acc : List PdfFile × List ParsedRecord) :
    List PdfFile × List ParsedRecord :=
  fresh.foldl (extractTarget ex) acc

/-- Modelled from the spec: one end-to-end run.  A discovery failure aborts
the run to FAILED with a FAILURE RunLog and touches no persisted row;
otherwise discovery, download and extraction execute in order, the run ends
DONE, and exactly one RunLog summarizes it (SUCCESS without per-target
failures, PARTIAL with them). -/
def runOnce (disc : Except String (List Listing))
    (net : Target → Option Nat) (ex : PdfFile → Option (List ParsedRecord))
    (k : TriggerKind) (s : PipeState) : PipeState × RunLog × RCState :=
  match disc with
  | Except.error e =>
    (s,
     { execution_type := k, outcome := Outcome.FAILURE, journals_found := 0,
       pdfs_downloaded := 0, records_extracted := 0,
       error_message := some e },
     RCState.FAILED)
  | Except.ok listings =>
    let js := discoverPhase listings s.journals
    let dm := downloadTargets net (allTargets listings) (initDM s)
    let fin := extractFresh ex dm.fresh (dm.files, s.trademarks)
    ({ journals := js, files := fin.1, trademarks := fin.2, disk := dm.disk },
     { execution_type := k,
       outcome := if dm.failures = 0 then Outcome.SUCCESS else Outcome.PARTIAL,
       journals_found := listings.length,
       pdfs_downloaded := dm.downloaded,
       records_extracted := fin.2.length - s.trademarks.length,
       error_message := none },
     RCState.DONE)

/-! ## Run Coordinator (modelled from the spec) -/

/-- Modelled from the spec: the Run Coordinator owns its state field, the
RunLog rows written so far, and (to express that rejected triggers are never
queued) a queue of pending triggers. -/
structure Coord where
  state : RCState
  runLogs : List RunLog
  queued : List TriggerKind
deriving DecidableEq, Repr

/-- Response to a trigger. -/
inductive TriggerResp where
  | started
  | alreadyRunning
deriving DecidableEq, Repr

/-- Modelled from the spec: single-flight trigger handling — an IDLE
coordinator starts a run, any other state rejects the trigger immediately
with an already-running response, changing nothing and queueing nothing. -/
def trigger (c : Coord) (k : TriggerKind) : Coord × TriggerResp :=
  if c.state = RCState.IDLE then
    ({ c with state := RCState.DISCOVERING, queued := c.queued },
     TriggerResp.started)
  else (c, TriggerResp.alreadyRunning)

/-- Modelled from the spec: on reaching DONE or FAILED the coordinator writes
exactly one RunLog and returns to IDLE. -/
def completeRun (c : Coord) (log : RunLog) : Coord :=
  { c with state := RCState.IDLE, runLogs := c.runLogs ++ [log] }

/-! ## Pipeline operations on the persisted state (modelled from the spec) -/

/-- A file status is settled when it is COMPLETED or ERROR. -/
def settled (st : Status) : Prop :=
  st = Status.COMPLETED ∨ st = Status.ERROR

instance (st : Status) : Decidable (settled st) := by
  unfold settled
  infer_instance

/-- Every file owned by this journal number is settled. -/
def allSettled (jn : String) (files : List PdfFile) : Bool :=
  files.all (fun f => !(decide (f.journal_number = jn)) ||
    decide (settled f.extraction_status))

/-- A COMPLETED journal with this number exists. -/
def completedJournalExists (journals : List Journal) (jn : String) : Bool :=
  journals.any
    (fun j => decide (j.journal_number = jn ∧ j.status = Status.COMPLETED))

/-- Modelled from the spec: a PENDING AcquiredFile row created when a download
target is identified. -/
def mkPendingRow (t : Target) : PdfFile :=
  { journal_number := t.journal_number,
    file_name := t.file_name,
    class_range := t.class_range,
    file_size_bytes := 0,
    extraction_status := Status.PENDING,
    records_extracted := 0,
    error_message := none }

/-- Modelled from the spec: the atomic persisted-state operations the pipeline
performs during a run, at both granularities. -/
inductive PipeOp where
  | discover (l : Listing)
  | addTarget (t : Target)
  | startFile (t : Target)
  | finishFileOk (t : Target) (n : Nat)
  | finishFileErr (t : Target) (msg : String)
  | startJournal (jn : String)
  | completeJournal (jn : String)
  | failJournal (jn : String) (msg : String)

/-- Modelled from the spec: the effect of one pipeline operation on the
persisted state.  Journals advance only through these operations; a journal is
marked COMPLETED only once every owned file is settled, and download targets
are identified only for journals that are not yet COMPLETED. -/
def applyOp (s : PipeState) : PipeOp → PipeState
  | PipeOp.discover l =>
    if journalKnown s.journals l.journal_number then s
    else { s with journals := s.journals ++ [mkJournal l] }
  | PipeOp.addTarget t =>
    if completedJournalExists s.journals t.journal_number then s
    else { s with files := s.files ++ [mkPendingRow t] }
  | PipeOp.startFile t =>
    { s with files := s.files.map (fun f =>
        if rowMatches t f ∧ f.extraction_status = Status.PENDING then
          { f with extraction_status := Status.PROCESSING }
        else f) }
  | PipeOp.finishFileOk t n =>
    { s with files := s.files.map (fun f =>
        if rowMatches t f then
          { f with extraction_status := Status.COMPLETED,
                   records_extracted := n }
        else f) }
  | PipeOp.finishFileErr t msg =>
    { s with files := s.files.map (fun f =>
        if rowMatches t f then
          { f with extraction_status := Status.ERROR,
                   error_message := some msg }
        else f) }
  | PipeOp.startJournal jn =>
    { s with journals := s.journals.map (fun j =>
        if j.journal_number = jn ∧ j.status = Status.PENDING then
          { j with status := Status.PROCESSING }
        else j) }
  | PipeOp.completeJournal jn =>
    if allSettled jn s.files then
      { s with journals := s.journals.map (fun j =>
          if j.journal_number = jn then { j with status := Status.COMPLETED }
          else j) }
    else s
  | PipeOp.failJournal jn msg =>
    { s with journals := s.journals.map (fun j =>
        if j.journal_number = jn then
          { j with status := Status.ERROR, error_message := some msg }
        else j) }

/-- The claimed invariant: a COMPLETED journal owns only settled files. -/
def PipeInv (s : PipeState) : Prop :=
  ∀ j ∈ s.journals, j.status = Status.COMPLETED →
    ∀ f ∈ s.files, f.journal_number = j.journal_number →
      settled f.extraction_status

instance (s : PipeState) : Decidable (PipeInv s) := by
  unfold PipeInv
  infer_instance

/-! ## Dashboard cleanup handler (embedded from
frontend/src/pages/Dashboard.jsx) -/

/-- The Dashboard component state relevant to handleCleanup: the
showCleanupConfirm flag (useState at Dashboard.jsx line 11). -/
structure DashboardState where
  showCleanupConfirm : Bool
deriving DecidableEq, Repr

/-- Initial Dashboard state: useState(false). -/
def dashboardInit : DashboardState :=
  { showCleanupConfirm := false }

/-- handleCleanup from Dashboard.jsx lines 36-51: when the confirmation flag
is down, raise it and return without calling the API; when it is up, invoke
the cleanupAllData endpoint (DELETE /api/scraper/cleanup) and lower the flag
whether the call succeeds or throws.  The Bool result records whether the
endpoint was invoked. -/
def handleCleanup (s : DashboardState) : DashboardState × Bool :=
  if s.showCleanupConfirm = false then
    ({ showCleanupConfirm := true }, false)
  else
    ({ showCleanupConfirm := false }, true)

/-! ## Sample data for concrete evaluations -/

/-- Sample target of publication 2237 (spec scenario data). -/
def tJ2237 : Target :=
  { journal_number := "2237", class_range := "1-45",
    file_name := "J2237.pdf" }

/-- Sample target of publication 2236 (spec scenario data). -/
def tJ2236 : Target :=
  { journal_number := "2236", class_range := "46-99",
    file_name := "J2236.pdf" }

/-- Sample listing of publication 2237 (spec scenario data). -/
def lJ2237 : Listing :=
  { journal_number := "2237", publication_date := "2025-01-06",
    availability_date := "2025-01-06", targets := [tJ2237] }

/-- Sample persisted state after a successful run over lJ2237: the journal is
known and its single target is acquired with an intact 1000-byte file. -/
def sAfterRun : PipeState :=
  { journals := [mkJournal lJ2237],
    files := [mkCompletedRow tJ2237 1000],
    trademarks := [],
    disk := [("2237/J2237.pdf", 1000)] }

/-! ## Helper lemmas -/

lemma rowMatches_mkCompletedRow (t : Target) (sz : Nat) :
    rowMatches t (mkCompletedRow t sz) = true := by
  simp [rowMatches, mkCompletedRow]

lemma rowMatches_mkErrorRow (t : Target) (msg : String) :
    rowMatches t (mkErrorRow t msg) = true := by
  simp [rowMatches, mkErrorRow]

lemma find?_deleteRow (files : List PdfFile) (t : Target) :
    (deleteRow files t).find? (rowMatches t) = none := by
  apply List.find?_eq_none.mpr
  intro f hf
  have h := (List.mem_filter.mp hf).2
  simp only [Bool.not_eq_true'] at h
  simp [h]

lemma filter_deleteRow (files : List PdfFile) (t : Target) :
    (deleteRow files t).filter (rowMatches t) = [] := by
  apply List.filter_eq_nil_iff.mpr
  intro f hf
  have h := (List.mem_filter.mp hf).2
  simp only [Bool.not_eq_true'] at h
  simp [h]

lemma findRow_deleteRow_append (files : List PdfFile) (t : Target)
    (r : PdfFile) (hr : rowMatches t r = true) :
    findRow (deleteRow files t ++ [r]) t = some r := by
  unfold findRow
  rw [List.find?_append, find?_deleteRow]
  simp [List.find?_cons_of_pos _ hr]

lemma filter_deleteRow_append (files : List PdfFile) (t : Target)
    (r : PdfFile) (hr : rowMatches t r = true) :
    (deleteRow files t ++ [r]).filter (rowMatches t) = [r] := by
  rw [List.filter_append, filter_deleteRow]
  simp [hr]

lemma filter_eq_nil_of_findRow_none (files : List PdfFile) (t : Target)
    (h : findRow files t = none) : files.filter (rowMatches t) = [] := by
  apply List.filter_eq_nil_iff.mpr
  exact List.find?_eq_none.mp h

lemma processTarget_skip (net : Target → Option Nat) (dm : DMState)
    (t : Target) (h : alreadyAcquired dm.files dm.disk t = true) :
    processTarget net dm t = dm := by
  unfold alreadyAcquired at h
  unfold processTarget
  cases hfr : findRow dm.files t with
  | none => rw [hfr] at h; cases h
  | some r =>
    rw [hfr] at h
    simp only [Bool.and_eq_true, decide_eq_true_eq] at h
    exact if_pos h

lemma downloadTargets_skip (net : Target → Option Nat) (ts : List Target)
    (dm : DMState) (h : ∀ t ∈ ts, alreadyAcquired dm.files dm.disk t = true) :
    downloadTargets net ts dm = dm := by
  induction ts with
  | nil => rfl
  | cons t ts ih =>
    unfold downloadTargets
    rw [List.foldl_cons, processTarget_skip net dm t (h t (by simp))]
    exact ih (fun x hx => h x (by simp [hx]))

lemma discoverPhase_known (listings : List Listing) (js : List Journal)
    (h : ∀ l ∈ listings, journalKnown js l.journal_number = true) :
    discoverPhase listings js = js := by
  induction listings with
  | nil => rfl
  | cons l ls ih =>
    unfold discoverPhase
    rw [List.foldl_cons, if_pos (h l (by simp))]
    exact ih (fun x hx => h x (by simp [hx]))

lemma diskLookup_diskWrite (disk : List (String × Nat)) (path : String)
    (sz : Nat) : diskLookup (diskWrite disk path sz) path = some sz := by
  unfold diskLookup diskWrite
  rw [List.find?_cons_of_pos _ (by simp)]

/-! ## Claim theorems -/

/-- C3: a trigger received while the Run Coordinator is not IDLE is rejected
immediately with an already-running response, the coordinator — including its
trigger queue — is unchanged, and no RunLog row is created for the trigger. -/
theorem busy_trigger_rejected_unqueued (c : Coord) (k : TriggerKind)
    (h : c.state ≠ RCState.IDLE) :
    trigger c k = (c, TriggerResp.alreadyRunning) ∧
    (trigger c k).1.queued = c.queued ∧
    (trigger c k).1.runLogs = c.runLogs := by
  have ht : trigger c k = (c, TriggerResp.alreadyRunning) := by
    unfold trigger
    exact if_neg h
  exact ⟨ht, by rw [ht], by rw [ht]⟩

/-- Witness for C3 at a coordinator busy in the DOWNLOADING state. -/
theorem busy_trigger_rejected_unqueued_witness :
    trigger { state := RCState.DOWNLOADING, runLogs := [], queued := [] }
        TriggerKind.MANUAL =
      ({ state := RCState.DOWNLOADING, runLogs := [], queued := [] },
       TriggerResp.alreadyRunning) :=
  (busy_trigger_rejected_unqueued
    { state := RCState.DOWNLOADING, runLogs := [], queued := [] }
    TriggerKind.MANUAL (by decide)).1

/-- C8: a discovery failure aborts the run to FAILED with a RunLog of outcome
FAILURE and leaves every persisted table — journals, pdf files and extracted
records — exactly as it was, so previously completed publications together
with their files and records are untouched. -/
theorem discovery_failure_frame (e : String) (net : Target → Option Nat)
    (ex : PdfFile → Option (List ParsedRecord)) (k : TriggerKind)
    (s : PipeState) :
    (runOnce (Except.error e) net ex k s).1 = s ∧
    (runOnce (Except.error e) net ex k s).2.2 = RCState.FAILED ∧
    (runOnce (Except.error e) net ex k s).2.1.outcome = Outcome.FAILURE ∧
    (runOnce (Except.error e) net ex k s).1.journals = s.journals ∧
    (runOnce (Except.error e) net ex k s).1.files = s.files ∧
    (runOnce (Except.error e) net ex k s).1.trademarks = s.trademarks :=
  ⟨rfl, rfl, rfl, rfl, rfl, rfl⟩

/-- C9: when a field has several candidate matches inside one block, the field
extractor returns the value of the first matching line after the block start;
every later candidate in the same block is ignored. -/
theorem first_match_wins (label : String) (pre : List String) (l : String)
    (post : List String)
    (hpre : ∀ x ∈ pre, labelMatches label x = false)
    (hl : labelMatches label l = true) :
    extractField label (pre ++ l :: post) = some (fieldValue label l) := by
  unfold extractField
  have hfind : (pre ++ l :: post).find? (labelMatches label) = some l := by
    induction pre with
    | nil => simpa using List.find?_cons_of_pos post hl
    | cons x xs ih =>
      rw [List.cons_append,
        List.find?_cons_of_neg _ (by simp [hpre x (by simp)])]
      exact ih (fun y hy => hpre y (by simp [hy]))
  rw [hfind]
  rfl

/-- Witness for C9: a block holding two filing-date candidates yields the
earlier one. -/
theorem first_match_wins_witness :
    extractField filingDateLabel
        (["Application No: 5001234"] ++
          "Filing Date: 2024-01-06" :: ["Filing Date: 2030-12-31"]) =
      some (fieldValue filingDateLabel ("Filing Date: 2024-01-06")) :=
  first_match_wins filingDateLabel ["Application No: 5001234"]
    "Filing Date: 2024-01-06" ["Filing Date: 2030-12-31"]
    (by decide) (by decide)

/-- C7: a block whose filing-date extractor finds no match still yields a
record — filing_date is null while every other extractable field carries its
extractor value — and the record appears in the parser output for its file
rather than being dropped; no error is raised. -/
theorem missing_field_degrades_to_null (b : List String)
    (blocks : List (List String)) (a : String)
    (hmem : b ∈ blocks)
    (happ : extractField appNoLabel b = some a)
    (hfd : extractField filingDateLabel b = none) :
    parseBlock b = some
      { application_number := some a,
        filing_date := none,
        trademark_name := extractField nameLabel b,
        applicant_name := extractField applicantLabel b,
        class_number := extractField classNoLabel b,
        goods_services := extractField goodsLabel b } ∧
    { application_number := some a,
      filing_date := none,
      trademark_name := extractField nameLabel b,
      applicant_name := extractField applicantLabel b,
      class_number := extractField classNoLabel b,
      goods_services := extractField goodsLabel b } ∈ parseBlocks blocks := by
  have hp : parseBlock b = some
      { application_number := some a,
        filing_date := none,
        trademark_name := extractField nameLabel b,
        applicant_name := extractField applicantLabel b,
        class_number := extractField classNoLabel b,
        goods_services := extractField goodsLabel b } := by
    unfold parseBlock
    rw [happ, hfd]
  refine ⟨hp, ?_⟩
  unfold parseBlocks
  exact List.mem_filterMap.mpr ⟨b, hmem, hp⟩

/-- Witness for C7 at a concrete block with no filing-date line. -/
theorem missing_field_degrades_to_null_witness :
    parseBlock ["Application No: 5001234", "Trademark: ACME",
        "Applicant: Foo Ltd", "Class: 9", "Goods: widgets"] = some
      { application_number := some ("5001234"),
        filing_date := none,
        trademark_name := extractField nameLabel
          ["Application No: 5001234", "Trademark: ACME",
           "Applicant: Foo Ltd", "Class: 9", "Goods: widgets"],
        applicant_name := extractField applicantLabel
          ["Application No: 5001234", "Trademark: ACME",
           "Applicant: Foo Ltd", "Class: 9", "Goods: widgets"],
        class_number := extractField classNoLabel
          ["Application No: 5001234", "Trademark: ACME",
           "Applicant: Foo Ltd", "Class: 9", "Goods: widgets"],
        goods_services := extractField goodsLabel
          ["Application No: 5001234", "Trademark: ACME",
           "Applicant: Foo Ltd", "Class: 9", "Goods: widgets"] } :=
  (missing_field_degrades_to_null
    ["Application No: 5001234", "Trademark: ACME",
     "Applicant: Foo Ltd", "Class: 9", "Goods: widgets"]
    [["Application No: 5001234", "Trademark: ACME",
      "Applicant: Foo Ltd", "Class: 9", "Goods: widgets"]]
    "5001234" (by simp) (by decide) (by decide)).1

/-- C10: handleCleanup is a two-step confirmation guard — with the
confirmation flag down it only raises the flag and does not invoke the
cleanup endpoint, the endpoint is invoked exactly when the flag is already
up, and in particular the first invocation from the initial Dashboard state
performs no cleanup call. -/
theorem cleanup_two_step_guard (s : DashboardState) :
    (s.showCleanupConfirm = false →
      handleCleanup s = ({ showCleanupConfirm := true }, false)) ∧
    ((handleCleanup s).2 = true → s.showCleanupConfirm = true) ∧
    (handleCleanup dashboardInit).2 = false := by
  obtain ⟨b⟩ := s
  cases b <;> simp [handleCleanup, dashboardInit]

/-- Witness for C10 at the initial Dashboard state. -/
theorem cleanup_two_step_guard_witness :
    handleCleanup dashboardInit = ({ showCleanupConfirm := true }, false) :=
  (cleanup_two_step_guard dashboardInit).1 rfl

/-- C4: a target whose step-4 download fails — the download function yields no
byte count, covering network/I-O errors and the wall-clock timeout — ends with
its row extraction_status set to ERROR and the failure message recorded, and
the Download Manager continues with the remaining targets; the failure never
aborts the fold over targets. -/
theorem download_failure_marks_error_continues (net : Target → Option Nat)
    (s : DMState) (t : Target) (ts : List Target)
    (hstep : stepFourReached s t = true)
    (hnet : net t = none) :
    findRow (processTarget net s t).files t = some (mkErrorRow t dlFailMsg) ∧
    (mkErrorRow t dlFailMsg).extraction_status = Status.ERROR ∧
    (mkErrorRow t dlFailMsg).error_message = some dlFailMsg ∧
    downloadTargets net (t :: ts) s =
      downloadTargets net ts (processTarget net s t) := by
  have hpt : processTarget net s t = doDownload net s t := by
    unfold stepFourReached at hstep
    unfold processTarget
    cases hfr : findRow s.files t with
    | some r =>
      rw [hfr] at hstep
      have hcond : ¬(r.extraction_status = Status.COMPLETED ∧
          fileOk s.disk t = true) := by
        intro hc
        simp [hc.1, hc.2] at hstep
      exact if_neg hcond
    | none =>
      rw [hfr] at hstep
      simp only [Bool.not_eq_true'] at hstep
      have hcond : ¬(filePresent s.disk t = true) := by simp [hstep]
      exact if_neg hcond
  refine ⟨?_, rfl, rfl, rfl⟩
  rw [hpt]
  unfold doDownload
  rw [hnet]
  exact findRow_deleteRow_append s.files t _ (rowMatches_mkErrorRow t dlFailMsg)

/-- Witness for C4 at a fresh target whose download fails. -/
theorem download_failure_marks_error_continues_witness :
    findRow (processTarget (fun _ => none)
        { files := [], disk := [], netCalls := 0, downloaded := 0,
          failures := 0, fresh := [] } tJ2236).files tJ2236 =
      some (mkErrorRow tJ2236 dlFailMsg) :=
  (download_failure_marks_error_continues (fun _ => none)
    { files := [], disk := [], netCalls := 0, downloaded := 0,
      failures := 0, fresh := [] } tJ2236 []
    (by decide) rfl).1

/-- C5: a target with an existing row whose file on disk is missing or empty
is self-healed — the old row is deleted and the target re-downloaded (one new
form submission); after a successful download the target owns exactly one
row, COMPLETED with byte size > 0, and the file is rewritten on disk with
that size. -/
theorem self_heal_redownload (net : Target → Option Nat) (s : DMState)
    (t : Target) (r : PdfFile) (sz : Nat)
    (hrow : findRow s.files t = some r)
    (hbad : fileOk s.disk t = false)
    (hnet : net t = some sz) (hpos : 0 < sz) :
    (processTarget net s t).files.filter (rowMatches t) =
      [mkCompletedRow t sz] ∧
    (mkCompletedRow t sz).extraction_status = Status.COMPLETED ∧
    (mkCompletedRow t sz).file_size_bytes = sz ∧ 0 < sz ∧
    diskLookup (processTarget net s t).disk (filePath t) = some sz ∧
    (processTarget net s t).netCalls = s.netCalls + 1 := by
  have hpt : processTarget net s t = doDownload net s t := by
    unfold processTarget
    rw [hrow]
    have hcond : ¬(r.extraction_status = Status.COMPLETED ∧
        fileOk s.disk t = true) := by
      intro hc
      rw [hbad] at hc
      cases hc.2
    exact if_neg hcond
  rw [hpt]
  unfold doDownload
  rw [hnet]
  refine ⟨?_, rfl, rfl, hpos, ?_, rfl⟩
  · exact filter_deleteRow_append s.files t _ (rowMatches_mkCompletedRow t sz)
  · exact diskLookup_diskWrite s.disk (filePath t) sz

/-- Witness for C5 at a COMPLETED row pointing at a zero-byte file. -/
theorem self_heal_redownload_witness :
    (processTarget (fun _ => some 1234)
        { files := [mkCompletedRow tJ2237 0],
          disk := [("2237/J2237.pdf", 0)], netCalls := 0, downloaded := 0,
          failures := 0, fresh := [] } tJ2237).files.filter
      (rowMatches tJ2237) = [mkCompletedRow tJ2237 1234] :=
  (self_heal_redownload (fun _ => some 1234)
    { files := [mkCompletedRow tJ2237 0],
      disk := [("2237/J2237.pdf", 0)], netCalls := 0, downloaded := 0,
      failures := 0, fresh := [] } tJ2237 (mkCompletedRow tJ2237 0) 1234
    (by decide) (by decide) rfl (by decide)).1

/-- C6: a target with no row but a file matching the expected name on disk is
adopted — the Download Manager ends with exactly one row for the target,
COMPLETED with the on-disk size, and performs zero network calls for it. -/
theorem orphan_adoption_no_network (net : Target → Option Nat) (s : DMState)
    (t : Target)
    (hrow : findRow s.files t = none)
    (hdisk : filePresent s.disk t = true) :
    (processTarget net s t).files.filter (rowMatches t) =
      [mkCompletedRow t (diskSizeD s.disk t)] ∧
    (mkCompletedRow t (diskSizeD s.disk t)).extraction_status =
      Status.COMPLETED ∧
    (processTarget net s t).netCalls = s.netCalls ∧
    (processTarget net s t).downloaded = s.downloaded := by
  have hpt : processTarget net s t =
      { s with files := s.files ++ [mkCompletedRow t (diskSizeD s.disk t)],
               fresh := s.fresh ++ [t] } := by
    unfold processTarget
    rw [hrow]
    exact if_pos hdisk
  rw [hpt]
  refine ⟨?_, rfl, rfl, rfl⟩
  rw [List.filter_append, filter_eq_nil_of_findRow_none s.files t hrow]
  simp [rowMatches_mkCompletedRow]

/-- Witness for C6 at an untracked on-disk file. -/
theorem orphan_adoption_no_network_witness :
    (processTarget (fun _ => some 1)
        { files := [], disk := [("2237/J2237.pdf", 777)], netCalls := 5,
          downloaded := 2, failures := 0, fresh := [] } tJ2237).netCalls =
      5 :=
  (orphan_adoption_no_network (fun _ => some 1)
    { files := [], disk := [("2237/J2237.pdf", 777)], netCalls := 5,
      downloaded := 2, failures := 0, fresh := [] } tJ2237
    (by decide) (by decide)).2.2.1

/-- C1: a run against a remote listing identical to the previous successful
run — every publication already known, every target already acquired with an
intact file on disk — leaves the whole persisted state unchanged (so all
stored record counts are unchanged), reports 0 files downloaded in its
RunLog, and the Download Manager is the identity on its initial state, so it
performs zero network calls. -/
theorem rerun_unchanged_zero_downloads (net : Target → Option Nat)
    (ex : PdfFile → Option (List ParsedRecord)) (k : TriggerKind)
    (listings : List Listing) (s : PipeState)
    (hj : ∀ l ∈ listings, journalKnown s.journals l.journal_number = true)
    (ha : ∀ t ∈ allTargets listings,
      alreadyAcquired s.files s.disk t = true) :
    (runOnce (Except.ok listings) net ex k s).1 = s ∧
    (runOnce (Except.ok listings) net ex k s).2.1.pdfs_downloaded = 0 ∧
    (runOnce (Except.ok listings) net ex k s).2.1.records_extracted = 0 ∧
    downloadTargets net (allTargets listings) (initDM s) = initDM s := by
  have hdm : downloadTargets net (allTargets listings) (initDM s) =
      initDM s :=
    downloadTargets_skip net (allTargets listings) (initDM s) ha
  have hjs : discoverPhase listings s.journals = s.journals :=
    discoverPhase_known listings s.journals hj
  refine ⟨?_, ?_, ?_, hdm⟩
  · simp only [runOnce, hjs, hdm, extractFresh]
    rfl
  · simp only [runOnce, hdm]
    rfl
  · simp only [runOnce, hdm, extractFresh]
    exact Nat.sub_self _

/-- Witness for C1: a second run over the spec-scenario state acquired by the
first run changes nothing. -/
theorem rerun_unchanged_zero_downloads_witness :
    (runOnce (Except.ok [lJ2237]) (fun _ => none) (fun _ => none)
        TriggerKind.MANUAL sAfterRun).1 = sAfterRun :=
  (rerun_unchanged_zero_downloads (fun _ => none) (fun _ => none)
    TriggerKind.MANUAL [lJ2237] sAfterRun (by decide) (by decide)).1

lemma pipeInv_map_files (s : PipeState) (g : PdfFile → PdfFile)
    (hjn : ∀ f, (g f).journal_number = f.journal_number)
    (hst : ∀ f, settled f.extraction_status →
      settled (g f).extraction_status)
    (h : PipeInv s) : PipeInv { s with files := s.files.map g } := by
  intro j hj hc f hf hfj
  obtain ⟨f0, hf0, rfl⟩ := List.mem_map.mp hf
  refine hst f0 (h j hj hc f0 hf0 ?_)
  rw [hjn f0] at hfj
  exact hfj

lemma pipeInv_map_journals (s : PipeState) (g : Journal → Journal)
    (hg : ∀ j, (g j).status = Status.COMPLETED →
      (g j).journal_number = j.journal_number ∧
        j.status = Status.COMPLETED)
    (h : PipeInv s) : PipeInv { s with journals := s.journals.map g } := by
  intro j hj hc f hf hfj
  obtain ⟨j0, hj0, rfl⟩ := List.mem_map.mp hj
  obtain ⟨hn, hs0⟩ := hg j0 hc
  refine h j0 hj0 hs0 f hf ?_
  rw [hn] at hfj
  exact hfj

lemma applyOp_preserves (s : PipeState) (op : PipeOp) (h : PipeInv s) :
    PipeInv (applyOp s op) := by
  cases op with
  | discover l =>
    simp only [applyOp]
    split
    · exact h
    · intro j hj hc f hf hfj
      rcases List.mem_append.mp hj with hj1 | hj2
      · exact h j hj1 hc f hf hfj
      · have hjl : j = mkJournal l := by simpa using hj2
        rw [hjl] at hc
        simp [mkJournal] at hc
  | addTarget t =>
    simp only [applyOp]
    split
    · exact h
    · rename_i hguard
      intro j hj hc f hf hfj
      rcases List.mem_append.mp hf with hf1 | hf2
      · exact h j hj hc f hf1 hfj
      · have hft : f = mkPendingRow t := by simpa using hf2
        exfalso
        apply hguard
        unfold completedJournalExists
        apply List.any_eq_true.mpr
        refine ⟨j, hj, decide_eq_true ⟨?_, hc⟩⟩
        rw [hft] at hfj
        simp only [mkPendingRow] at hfj
        exact hfj.symm
  | startFile t =>
    simp only [applyOp]
    refine pipeInv_map_files s _ ?_ ?_ h
    · intro f
      by_cases hcond : (rowMatches t f = true ∧
          f.extraction_status = Status.PENDING)
      · rw [if_pos hcond]
      · rw [if_neg hcond]
    · intro f hs
      by_cases hcond : (rowMatches t f = true ∧
          f.extraction_status = Status.PENDING)
      · exfalso
        rcases hs with hs | hs <;> rw [hcond.2] at hs <;> cases hs
      · rw [if_neg hcond]
        exact hs
  | finishFileOk t n =>
    simp only [applyOp]
    refine pipeInv_map_files s _ ?_ ?_ h
    · intro f
      by_cases hcond : rowMatches t f = true
      · rw [if_pos hcond]
      · rw [if_neg hcond]
    · intro f hs
      by_cases hcond : rowMatches t f = true
      · rw [if_pos hcond]
        exact Or.inl rfl
      · rw [if_neg hcond]
        exact hs
  | finishFileErr t msg =>
    simp only [applyOp]
    refine pipeInv_map_files s _ ?_ ?_ h
    · intro f
      by_cases hcond : rowMatches t f = true
      · rw [if_pos hcond]
      · rw [if_neg hcond]
    · intro f hs
      by_cases hcond : rowMatches t f = true
      · rw [if_pos hcond]
        exact Or.inr rfl
      · rw [if_neg hcond]
        exact hs
  | startJournal jn =>
    simp only [applyOp]
    refine pipeInv_map_journals s _ ?_ h
    intro j hc
    by_cases hcond : (j.journal_number = jn ∧ j.status = Status.PENDING)
    · rw [if_pos hcond] at hc
      cases hc
    · rw [if_neg hcond] at hc ⊢
      exact ⟨rfl, hc⟩
  | completeJournal jn =>
    simp only [applyOp]
    split
    · rename_i hall
      intro j hj hc f hf hfj
      obtain ⟨j0, hj0, rfl⟩ := List.mem_map.mp hj
      by_cases hcond : j0.journal_number = jn
      · have hfjn : f.journal_number = jn := by
          rw [if_pos hcond] at hfj
          rw [hfj]
          exact hcond
        have hflag := List.all_eq_true.mp hall f hf
        simpa [hfjn] using hflag
      · rw [if_neg hcond] at hc hfj
        exact h j0 hj0 hc f hf hfj
    · exact h
  | failJournal jn msg =>
    simp only [applyOp]
    refine pipeInv_map_journals s _ ?_ h
    intro j hc
    by_cases hcond : j.journal_number = jn
    · rw [if_pos hcond] at hc
      cases hc
    · rw [if_neg hcond] at hc ⊢
      exact ⟨rfl, hc⟩

/-- C2: the invariant that a COMPLETED publication owns only files whose
extraction_status is COMPLETED or ERROR holds in every state reachable from
an invariant state by any sequence of pipeline operations — each operation
preserves it. -/
theorem completed_journal_files_settled (ops : List PipeOp) (s : PipeState)
    (h : PipeInv s) : PipeInv (ops.foldl applyOp s) := by
  induction ops generalizing s with
  | nil => exact h
  | cons op ops ih =>
    rw [List.foldl_cons]
    exact ih (applyOp s op) (applyOp_preserves s op h)

/-- Witness for C2: a full discover/download/extract/complete trace from the
empty state satisfies the invariant. -/
theorem completed_journal_files_settled_witness :
    PipeInv (List.foldl applyOp
      { journals := [], files := [], trademarks := [], disk := [] }
      [PipeOp.discover lJ2237, PipeOp.addTarget tJ2237,
       PipeOp.startFile tJ2237, PipeOp.finishFileOk tJ2237 3,
       PipeOp.completeJournal ("2237")]) :=
  completed_journal_files_settled
    [PipeOp.discover lJ2237, PipeOp.addTarget tJ2237,
     PipeOp.startFile tJ2237, PipeOp.finishFileOk tJ2237 3,
     PipeOp.completeJournal ("2237")]
    { journals := [], files := [], trademarks := [], disk := [] }
    (by decide)
